import Mathlib

/-!
Shallow embedding of the User State & Visibility Subsystem of the
userprofile-api repository, together with theorems settling the claims
about it.

Conventions of the embedding:
* machine ids (UUIDs) are modelled as `Nat`;
* timestamps (`datetime`) are modelled as `Int` instants; the formatted
  timestamp interpolated into anonymized identity strings is passed as a
  `String` parameter;
* Python `float` weights and the trust score are modelled as `ℚ` (every
  value reachable in the trust computation is a multiple of 1/2 and hence
  exact in binary floating point);
* raised exceptions (`ResourceNotFoundError`, ...) are modelled by the
  `Outcome` sum type;
* the SQL row store is modelled as explicit lists of rows (`DB`), the
  Redis cache as an association list keyed by the same string keys the
  code builds (`CacheStore`).
-/

namespace UserProfileApi

/-- Lifecycle status of a user row (app/models/user.py, `UserStatus`). -/
inductive UserStatus where
  | active
  | temporary_ban
  | banned
  deriving DecidableEq, Repr

/-- Moderation status of the main photo (app/models/user.py, `PhotoModerationStatus`). -/
inductive PhotoModerationStatus where
  | pending
  | approved
  | rejected
  deriving DecidableEq, Repr

/-- Typed errors raised by the service layer (app/core/exceptions.py):
`ResourceNotFoundError (resource)`, `ResourceDuplicateError (field, value)`,
`ResourceLimitExceededError (resource, limit)`, and the pydantic-level
validation rejection. -/
inductive ApiError where
  | notFound (resource : String)
  | duplicate (field value : String)
  | limitExceeded (resource : String) (limit : Nat)
  | validationFailed (msg : String)
  deriving DecidableEq, Repr

/-- Result of a service call: the returned payload or the raised exception. -/
inductive Outcome (α : Type) where
  | ok (val : α)
  | err (e : ApiError)
  deriving DecidableEq, Repr

/-- Lowercasing of a string, modelling both Python `str.lower()` and SQL
`lower()` as per-character lowercasing. -/
def toLowerStr (s : String) : String :=
  String.mk (s.data.map Char.toLower)

/-- Python's substring test `pat in s`. -/
def strContainsSub (s pat : String) : Bool :=
  (List.range (s.length + 1)).any (fun i => pat.data.isPrefixOf (s.data.drop i))

/-- An interest tag with weight (app/schemas/common.py, `InterestTag`). -/
structure InterestTag where
  tag : String
  weight : ℚ
  deriving DecidableEq, Repr

/-- A row of activity.user_interests (app/models/interests.py). -/
structure UserInterestsRow where
  user_id : Nat
  interest_tag : String
  weight : ℚ
  updated_at : Int
  deriving DecidableEq, Repr

/-- A row of activity.user_settings (app/models/settings.py); only the
field consulted by the embedded operations is carried. -/
structure SettingsRow where
  user_id : Nat
  ghost_mode : Bool
  deriving DecidableEq, Repr

/-- A row of activity.user_blocks (app/models/blocking.py). -/
structure UserBlock where
  blocker_user_id : Nat
  blocked_user_id : Nat
  deriving DecidableEq, Repr

/-- A row of activity.users (app/models/user.py), restricted to the fields
read or written by the embedded operations. -/
structure User where
  user_id : Nat
  email : String
  username : String
  status : UserStatus := .active
  ban_expires_at : Option Int := none
  ban_reason : Option String := none
  main_photo_url : Option String := none
  main_photo_moderation_status : PhotoModerationStatus := .pending
  profile_photos_extra : Option (List String) := some []
  is_verified : Bool := false
  verification_count : Nat := 0
  no_show_count : Nat := 0
  activities_created_count : Nat := 0
  activities_attended_count : Nat := 0
  updated_at : Int := 0
  deriving DecidableEq, Repr

/-- The row store: the tables touched by the embedded operations. -/
structure DB where
  users : List User
  blocks : List UserBlock
  interests : List UserInterestsRow
  settingsRows : List SettingsRow
  deriving DecidableEq, Repr

/-- `select(User).where(User.user_id == uid)` + `scalar_one_or_none()`. -/
def findUser (db : DB) (uid : Nat) : Option User :=
  db.users.find? (fun u => u.user_id == uid)

/-- Commit of an in-place mutation of one user row: the row with the same
primary key is replaced. -/
def updateUser (db : DB) (u' : User) : DB :=
  { db with users := db.users.map (fun v => if v.user_id == u'.user_id then u' else v) }

/-- Interests of a user (the `selectinload(User.interests)` relationship). -/
def interestsOf (db : DB) (uid : Nat) : List InterestTag :=
  (db.interests.filter (fun r => r.user_id == uid)).map
    (fun r => { tag := r.interest_tag, weight := r.weight })

/-- Settings row of a user (the `selectinload(User.settings)` relationship). -/
def settingsOf (db : DB) (uid : Nat) : Option SettingsRow :=
  db.settingsRows.find? (fun s => s.user_id == uid)

/-- The profile snapshot returned to callers (app/schemas/profile.py,
`UserProfileResponse`), restricted to the embedded fields. -/
structure UserProfileResponse where
  user_id : Nat
  email : String
  username : String
  status : UserStatus
  ban_expires_at : Option Int
  ban_reason : Option String
  main_photo_url : Option String
  main_photo_moderation_status : PhotoModerationStatus
  profile_photos_extra : Option (List String)
  is_verified : Bool
  verification_count : Nat
  no_show_count : Nat
  activities_created_count : Nat
  activities_attended_count : Nat
  interests : List InterestTag
  settings : Option SettingsRow
  deriving DecidableEq, Repr

/-- Assembly of `UserProfileResponse(**user_dict)` with the interests and
settings relationships mapped in (profile_repository.py lines 60-83). -/
def mkUserProfileResponse (u : User) (ints : List InterestTag)
    (st : Option SettingsRow) : UserProfileResponse :=
  { user_id := u.user_id
    email := u.email
    username := u.username
    status := u.status
    ban_expires_at := u.ban_expires_at
    ban_reason := u.ban_reason
    main_photo_url := u.main_photo_url
    main_photo_moderation_status := u.main_photo_moderation_status
    profile_photos_extra := u.profile_photos_extra
    is_verified := u.is_verified
    verification_count := u.verification_count
    no_show_count := u.no_show_count
    activities_created_count := u.activities_created_count
    activities_attended_count := u.activities_attended_count
    interests := ints
    settings := st }

/-- The block query of `ProfileRepository.get_by_user_id`: a row exists
with `(blocker, blocked) = (user_id, requesting)` or
`(blocker, blocked) = (requesting, user_id)`. -/
def blockExists (db : DB) (user_id requesting_user_id : Nat) : Bool :=
  db.blocks.any (fun b =>
    (b.blocker_user_id == user_id && b.blocked_user_id == requesting_user_id) ||
    (b.blocker_user_id == requesting_user_id && b.blocked_user_id == user_id))

namespace ProfileRepository

/-- `ProfileRepository.get_by_user_id` (profile_repository.py lines 31-83):
block check first, then the user fetch with its relationships; a block in
either direction or a missing row yields `None`. -/
def get_by_user_id (db : DB) (user_id requesting_user_id : Nat) :
    Option UserProfileResponse :=
  if blockExists db user_id requesting_user_id then
    none
  else
    match findUser db user_id with
    | none => none
    | some u => some (mkUserProfileResponse u (interestsOf db user_id) (settingsOf db user_id))

end ProfileRepository

/-! ### Cache layer state (the Redis key space used by CacheManager) -/

/-- A value stored under a cache key. -/
inductive CacheVal where
  | vProfile (p : UserProfileResponse)
  | vSettings (s : SettingsRow)
  | vInterests (l : List InterestTag)
  deriving DecidableEq, Repr

/-- The Redis key space as an association list. -/
structure CacheStore where
  entries : List (String × CacheVal)
  deriving DecidableEq, Repr

/-- Key `f"user_profile:{user_id}"`. -/
def userProfileKey (uid : Nat) : String := "user_profile:" ++ toString uid

/-- Key `f"user_settings:{user_id}"`. -/
def userSettingsKey (uid : Nat) : String := "user_settings:" ++ toString uid

/-- Key `f"user_interests:{user_id}"`. -/
def userInterestsKey (uid : Nat) : String := "user_interests:" ++ toString uid

/-- Point lookup of a cache key. -/
def cacheLookup (c : CacheStore) (k : String) : Option CacheVal :=
  (c.entries.find? (fun e => e.1 == k)).map (fun e => e.2)

/-- `SETEX`: store a value under a key, replacing any previous value. -/
def cacheStoreKey (c : CacheStore) (k : String) (v : CacheVal) : CacheStore :=
  { entries := (k, v) :: c.entries.filter (fun e => e.1 != k) }

/-- Multi-key `DELETE`. -/
def cacheDeleteKeys (c : CacheStore) (ks : List String) : CacheStore :=
  { entries := c.entries.filter (fun e => !(ks.contains e.1)) }

/-- `CacheManager.get_user_profile` on the reliable-backend model. -/
def cacheGetUserProfile (c : CacheStore) (uid : Nat) : Option UserProfileResponse :=
  match cacheLookup c (userProfileKey uid) with
  | some (.vProfile p) => some p
  | _ => none

/-- `CacheManager.set_user_profile` on the reliable-backend model. -/
def cacheSetUserProfile (c : CacheStore) (uid : Nat) (p : UserProfileResponse) : CacheStore :=
  cacheStoreKey c (userProfileKey uid) (.vProfile p)

/-- `CacheManager.invalidate_user_profile`. -/
def invalidateUserProfile (c : CacheStore) (uid : Nat) : CacheStore :=
  cacheDeleteKeys c [userProfileKey uid]

/-- `CacheManager.invalidate_user_interests`. -/
def invalidateUserInterests (c : CacheStore) (uid : Nat) : CacheStore :=
  cacheDeleteKeys c [userInterestsKey uid]

/-- `CacheManager.invalidate_all_user_caches` (cache.py lines 178-188):
multi-key delete of the profile, settings and interests keys. -/
def invalidateAllUserCaches (c : CacheStore) (uid : Nat) : CacheStore :=
  cacheDeleteKeys c [userProfileKey uid, userSettingsKey uid, userInterestsKey uid]

namespace ProfileService

/-- `ProfileService.get_user_profile` (profile_service.py lines 45-96).
The storage fetch `activity.sp_get_user_profile($1, $2)` is implemented in
this codebase by `ProfileRepository.get_by_user_id`, which the embedding
composes in.  The cache is consulted and written only when
`user_id == requesting_user_id`; a missing or blocked subject raises
`ResourceNotFoundError(resource="User")`. -/
def get_user_profile (db : DB) (c : CacheStore) (user_id requesting_user_id : Nat)
    (use_cache : Bool := true) : Outcome UserProfileResponse × CacheStore :=
  let cached : Option UserProfileResponse :=
    if use_cache && user_id == requesting_user_id then
      cacheGetUserProfile c user_id
    else
      none
  match cached with
  | some p => (.ok p, c)
  | none =>
    match ProfileRepository.get_by_user_id db user_id requesting_user_id with
    | none => (.err (.notFound "User"), c)
    | some p =>
      if user_id == requesting_user_id then
        (.ok p, cacheSetUserProfile c user_id p)
      else
        (.ok p, c)

end ProfileService

/-! ### Account state machine: ban / unban / photo moderation -/

/-- Outcome dictionary returned by the moderation repository methods:
`{"success": ..., "message": ...}`. -/
structure RepoResult where
  success : Bool
  message : String
  deriving DecidableEq, Repr

/-- `BanUserRequest.validate_expiry` (schemas/moderation.py lines 84-97):
an `expires_at` less than or equal to now is rejected by pydantic before
any repository call; an omitted `expires_at` passes. -/
def validateBanExpiry (expires_at : Option Int) (now : Int) : Bool :=
  match expires_at with
  | none => true
  | some v => !(v ≤ now)

namespace ModerationRepository

/-- `ModerationRepository.ban_user` (moderation_repository.py lines 67-90).
A present `expires_at` (Python truthiness of a datetime) gives
`temporary_ban` with the expiry stored; an absent one gives `banned` with
the expiry cleared; `ban_reason` is overwritten in both branches; a
missing user commits nothing. -/
def ban_user (db : DB) (user_id : Nat) (reason : String)
    (expires_at : Option Int) (now : Int) : RepoResult × DB :=
  match findUser db user_id with
  | none => ({ success := false, message := "User not found" }, db)
  | some u =>
    let u' :=
      if expires_at.isSome then
        { u with status := .temporary_ban, ban_expires_at := expires_at,
                 ban_reason := some reason, updated_at := now }
      else
        { u with status := .banned, ban_expires_at := none,
                 ban_reason := some reason, updated_at := now }
    ({ success := true, message := "User banned" }, updateUser db u')

/-- `ModerationRepository.unban_user` (moderation_repository.py lines 92-110). -/
def unban_user (db : DB) (user_id : Nat) (now : Int) : RepoResult × DB :=
  match findUser db user_id with
  | none => ({ success := false, message := "User not found" }, db)
  | some u =>
    let u' := { u with status := .active, ban_expires_at := none,
                       ban_reason := none, updated_at := now }
    ({ success := true, message := "User unbanned" }, updateUser db u')

/-- `ModerationRepository.moderate_photo` (moderation_repository.py lines
45-65): the status is written unconditionally, whatever it was before. -/
def moderate_photo (db : DB) (user_id : Nat) (status : PhotoModerationStatus)
    (now : Int) : RepoResult × DB :=
  match findUser db user_id with
  | none => ({ success := false, message := "User not found" }, db)
  | some u =>
    let u' := { u with main_photo_moderation_status := status, updated_at := now }
    ({ success := true, message := "Photo moderated" }, updateUser db u')

end ModerationRepository

namespace ModerationService

/-- `ModerationService.ban_user` (moderation_service.py lines 38-44): the
repository call followed by an unconditional
`cache.invalidate_all_user_caches`; returns the repository success flag. -/
def ban_user (db : DB) (c : CacheStore) (user_id : Nat) (reason : String)
    (expires_at : Option Int) (now : Int) : Bool × DB × CacheStore :=
  let (res, db') := ModerationRepository.ban_user db user_id reason expires_at now
  (res.success, db', invalidateAllUserCaches c user_id)

/-- `ModerationService.unban_user` (moderation_service.py lines 46-52). -/
def unban_user (db : DB) (c : CacheStore) (user_id : Nat) (now : Int) :
    Bool × DB × CacheStore :=
  let (res, db') := ModerationRepository.unban_user db user_id now
  (res.success, db', invalidateAllUserCaches c user_id)

/-- `ModerationService.moderate_photo` (moderation_service.py lines 30-36):
profile-cache invalidation only, again unconditional. -/
def moderate_photo (db : DB) (c : CacheStore) (user_id : Nat)
    (status : PhotoModerationStatus) (now : Int) : Bool × DB × CacheStore :=
  let (res, db') := ModerationRepository.moderate_photo db user_id status now
  (res.success, db', invalidateUserProfile c user_id)

end ModerationService

/-- The ban endpoint as a caller sees it: pydantic validation of the
request body (`BanUserRequest.validate_expiry`) followed by
`ModerationService.ban_user`.  A rejected expiry never reaches the
repository or the cache. -/
def banUserValidated (db : DB) (c : CacheStore) (user_id : Nat) (reason : String)
    (expires_at : Option Int) (now : Int) : Outcome Bool × DB × CacheStore :=
  if !validateBanExpiry expires_at now then
    (.err (.validationFailed "Ban expiry date must be in the future"), db, c)
  else
    let (ok, db', c') := ModerationService.ban_user db c user_id reason expires_at now
    (.ok ok, db', c')

/-! ### Trust score engine -/

/-- Python `round(x, 1)`: round to one decimal place, ties to even
(banker's rounding on the scaled value). -/
def pythonRound1 (q : ℚ) : ℚ :=
  let y : ℚ := 10 * q
  let f : Int := ⌊y⌋
  let r : ℚ := y - f
  if r < 1 / 2 then (f : ℚ) / 10
  else if 1 / 2 < r then ((f : ℚ) + 1) / 10
  else if f % 2 = 0 then (f : ℚ) / 10 else ((f : ℚ) + 1) / 10

/-- The trust-score computation of
`VerificationService.get_verification_metrics` (verification_service.py
lines 28-40): `min(100, v*10 - n*20 + a*0.5)`, then `max(0, ...)`, then
`round(..., 1)`. -/
def trustScore (verification_count no_show_count activities_attended_count : Nat) : ℚ :=
  let ts : ℚ := min 100 ((verification_count : ℚ) * 10
    - (no_show_count : ℚ) * 20 + (activities_attended_count : ℚ) * (1 / 2))
  let ts : ℚ := max 0 ts
  pythonRound1 ts

/-- Modelled from the spec: `clamp(0, 100, x)` as the spec writes the trust
formula, for comparison with the code's `max`/`min` nesting. -/
def clampSpec (lo hi x : ℚ) : ℚ := max lo (min hi x)

/-- Modelled from the spec: the spec's trust-score formula
`round1(clamp(0, 100, v*10 - n*20 + a*0.5))`. -/
def trustScoreSpec (v n a : Nat) : ℚ :=
  pythonRound1 (clampSpec 0 100 ((v : ℚ) * 10 - (n : ℚ) * 20 + (a : ℚ) * (1 / 2)))

/-- The metrics payload of `get_verification_metrics`. -/
structure VerificationMetrics where
  verification_count : Nat
  no_show_count : Nat
  is_verified : Bool
  trust_score : ℚ
  activities_attended_count : Nat
  deriving DecidableEq, Repr

namespace VerificationService

/-- `VerificationService.get_verification_metrics` (verification_service.py
lines 21-42) composed with `VerificationRepository.get_metrics`
(verification_repository.py lines 16-32). -/
def get_verification_metrics (db : DB) (user_id : Nat) : Outcome VerificationMetrics :=
  match findUser db user_id with
  | none => .err (.notFound "User")
  | some u =>
    .ok { verification_count := u.verification_count
          no_show_count := u.no_show_count
          is_verified := u.is_verified
          trust_score := trustScore u.verification_count u.no_show_count
            u.activities_attended_count
          activities_attended_count := u.activities_attended_count }

end VerificationService

/-! ### Interest tags -/

/-- Duplicate test of `SetInterestsRequest.validate_unique_tags`
(schemas/interests.py lines 33-39): lowercase all tags and test
`len(tags) != len(set(tags))`, i.e. whether the lowered list repeats an
element. -/
def hasCiDuplicate (interests : List InterestTag) : Bool :=
  !(interests.map (fun i => toLowerStr i.tag)).Nodup

/-- Response of the bulk interest replacement. -/
structure SetInterestsResponse where
  success : Bool
  interest_count : Nat
  interests : List InterestTag
  deriving DecidableEq, Repr

namespace InterestRepository

/-- `InterestRepository.set_interests` (interest_repository.py lines 28-63):
reject batches over 20, otherwise delete the user's rows and bulk-insert
the batch in one transaction.  A batch with an exact duplicate tag would
violate the `(user_id, interest_tag)` primary key, the insert raises, and
the except branch rolls the transaction back. -/
def set_interests (db : DB) (user_id : Nat) (interests : List InterestTag)
    (now : Int) : SetInterestsResponse × DB :=
  if interests.length > 20 then
    ({ success := false, interest_count := 0, interests := [] }, db)
  else if !(interests.map (fun i => i.tag)).Nodup then
    ({ success := false, interest_count := 0, interests := [] }, db)
  else
    let db' := { db with
      interests := db.interests.filter (fun r => !(r.user_id == user_id)) ++
        interests.map (fun i =>
          { user_id := user_id, interest_tag := i.tag, weight := i.weight,
            updated_at := now }) }
    ({ success := true, interest_count := interests.length, interests := interests }, db')

/-- `InterestRepository.add_interest` (interest_repository.py lines 65-97):
the count check runs first and rejects at 20 unconditionally; below 20 an
exact-match existing row gets its weight overwritten, otherwise a new row
is inserted. -/
def add_interest (db : DB) (user_id : Nat) (tag : String) (weight : ℚ)
    (now : Int) : RepoResult × DB :=
  let count := (db.interests.filter (fun r => r.user_id == user_id)).length
  if count ≥ 20 then
    ({ success := false, message := "Maximum limit of 20 interests reached" }, db)
  else
    match db.interests.find? (fun r => r.user_id == user_id && r.interest_tag == tag) with
    | some _ =>
      let db' := { db with
        interests := db.interests.map (fun r =>
          if r.user_id == user_id && r.interest_tag == tag then
            { r with weight := weight, updated_at := now }
          else r) }
      ({ success := true, message := "Interest updated" }, db')
    | none =>
      let db' := { db with
        interests := db.interests ++
          [{ user_id := user_id, interest_tag := tag, weight := weight,
             updated_at := now }] }
      ({ success := true, message := "Interest added" }, db')

end InterestRepository

/-- The bulk-replacement endpoint as a caller sees it: pydantic validation
of `SetInterestsRequest` (`max_items=20` plus the case-insensitive
uniqueness validator) followed by the repository call and, on success, the
interests- and profile-cache invalidations of
`InterestService.set_interests` (interest_service.py lines 29-45). -/
def setInterestsValidated (db : DB) (c : CacheStore) (user_id : Nat)
    (interests : List InterestTag) (now : Int) : Outcome Nat × DB × CacheStore :=
  if interests.length > 20 then
    (.err (.validationFailed "ensure this value has at most 20 items"), db, c)
  else if hasCiDuplicate interests then
    (.err (.validationFailed "Interest tags must be unique"), db, c)
  else
    let (res, db') := InterestRepository.set_interests db user_id interests now
    if !res.success then
      (.err (.limitExceeded "interests" 20), db', c)
    else
      (.ok res.interest_count, db',
        invalidateUserProfile (invalidateUserInterests c user_id) user_id)

/-- `InterestService.add_interest` (interest_service.py lines 47-62)
composed with the repository: a failure whose message mentions "Maximum"
becomes `ResourceLimitExceededError`, any other failure becomes
`ResourceNotFoundError("User")`; success invalidates the interests and
profile caches. -/
def addInterestService (db : DB) (c : CacheStore) (user_id : Nat) (tag : String)
    (weight : ℚ) (now : Int) : Outcome Bool × DB × CacheStore :=
  let (res, db') := InterestRepository.add_interest db user_id tag weight now
  if !res.success then
    if strContainsSub res.message "Maximum" then
      (.err (.limitExceeded "interests" 20), db', c)
    else
      (.err (.notFound "User"), db', c)
  else
    (.ok res.success, db',
      invalidateUserProfile (invalidateUserInterests c user_id) user_id)

/-! ### Extra photos -/

namespace PhotoRepository

/-- `PhotoRepository.add_profile_photo` (photo_repository.py lines 39-67):
a `None` array is treated as empty, the limit of 8 is checked first, then
a duplicate URL fails without commit and a fresh URL is appended. -/
def add_profile_photo (db : DB) (user_id : Nat) (photo_url : String)
    (now : Int) : RepoResult × DB :=
  match findUser db user_id with
  | none => ({ success := false, message := "User not found" }, db)
  | some u =>
    let photos := u.profile_photos_extra.getD []
    if photos.length ≥ 8 then
      ({ success := false, message := "Maximum 8 extra photos allowed" }, db)
    else if !(photos.contains photo_url) then
      let u' := { u with profile_photos_extra := some (photos ++ [photo_url]),
                         updated_at := now }
      ({ success := true, message := "Photo added" }, updateUser db u')
    else
      ({ success := false, message := "Photo already exists" }, db)

/-- `PhotoRepository.get_extra_photos` (photo_repository.py lines 90-97). -/
def get_extra_photos (db : DB) (user_id : Nat) : List String :=
  match findUser db user_id with
  | none => []
  | some u => u.profile_photos_extra.getD []

end PhotoRepository

namespace PhotoService

/-- `PhotoService.add_profile_photo` (photo_service.py lines 37-55): a
repository failure whose message mentions "Maximum" becomes
`ResourceLimitExceededError(resource="photos", limit=8)`, one mentioning
"already added" would become `ResourceDuplicateError`, and anything else
becomes `ResourceNotFoundError("User")`; success re-reads the photos and
invalidates the profile cache. -/
def add_profile_photo (db : DB) (c : CacheStore) (user_id : Nat)
    (photo_url : String) (now : Int) : Outcome (List String) × DB × CacheStore :=
  let (res, db') := PhotoRepository.add_profile_photo db user_id photo_url now
  if !res.success then
    if strContainsSub res.message "Maximum" then
      (.err (.limitExceeded "photos" 8), db', c)
    else if strContainsSub res.message "already added" then
      (.err (.duplicate "photo" photo_url), db', c)
    else
      (.err (.notFound "User"), db', c)
  else
    (.ok (PhotoRepository.get_extra_photos db' user_id), db',
      invalidateUserProfile c user_id)

end PhotoService

/-! ### Username uniqueness and soft deletion -/

/-- The case-insensitive uniqueness query of
`ProfileRepository.update_username` (profile_repository.py lines 154-157):
some user row matches `lower(username) == lower(candidate)`. -/
def usernameConflict (db : DB) (candidate : String) : Bool :=
  db.users.any (fun u => toLowerStr u.username == toLowerStr candidate)

/-- Response of the soft-deletion repository call. -/
structure DeleteAccountResponse where
  success : Bool
  message : String
  deriving DecidableEq, Repr

/-- The row mutation of `ProfileRepository.delete` (profile_repository.py
lines 200-204): `status='banned'` with email and username prefixed by
`deleted_<timestamp>_`.  `ts` is the formatted
`datetime.now().timestamp()` value interpolated into the f-strings. -/
def anonymizeUser (u : User) (ts : String) (now : Int) : User :=
  { u with
    status := .banned
    email := "deleted_" ++ ts ++ "_" ++ u.email
    username := "deleted_" ++ ts ++ "_" ++ u.username
    updated_at := now }

namespace ProfileRepository

/-- `ProfileRepository.delete` (profile_repository.py lines 187-227): set
`status=banned`, prefix email and username with `deleted_<timestamp>_`
(the `anonymizeUser` row update), delete the user's interests and settings
rows, one commit. -/
def delete (db : DB) (user_id : Nat) (ts : String) (now : Int) :
    DeleteAccountResponse × DB :=
  match findUser db user_id with
  | none => ({ success := false, message := "User not found" }, db)
  | some u =>
    let u' := anonymizeUser u ts now
    let db' := updateUser db u'
    let db' := { db' with
      interests := db'.interests.filter (fun r => !(r.user_id == user_id))
      settingsRows := db'.settingsRows.filter (fun s => !(s.user_id == user_id)) }
    ({ success := true, message := "Account deleted successfully" }, db')

end ProfileRepository

namespace ProfileService

/-- `ProfileService.delete_account` (profile_service.py lines 238-267): the
storage deletion (implemented by `ProfileRepository.delete`), a raised
`ResourceNotFoundError` on failure before any invalidation, and
`cache.invalidate_all_user_caches` on success. -/
def delete_account (db : DB) (c : CacheStore) (user_id : Nat) (ts : String)
    (now : Int) : Outcome Bool × DB × CacheStore :=
  let (res, db') := ProfileRepository.delete db user_id ts now
  if !res.success then
    (.err (.notFound "User"), db', c)
  else
    (.ok true, db', invalidateAllUserCaches c user_id)

end ProfileService

/-! ### CacheManager with an explicit, possibly failing backend -/

/-- Outcome of one call into the Redis client: a value or a raised
exception. -/
inductive BackendResult (α : Type) where
  | ok (val : α)
  | exc
  deriving DecidableEq, Repr

/-- Behaviour of the Redis backend for the three client calls the manager
makes. -/
structure BackendOps where
  bget : String → BackendResult (Option String)
  bsetex : String → Nat → String → BackendResult Unit
  bdel : List String → BackendResult Nat

namespace CacheManager

/-- `CacheManager.get` (cache.py lines 48-70): disabled or disconnected
returns a miss without touching the backend; a backend exception is caught
and returned as a miss; an empty stored string is falsy in Python and also
reads as a miss. -/
def get (enabled connected : Bool) (b : BackendOps) (key : String) : Option String :=
  if !enabled || !connected then
    none
  else
    match b.bget key with
    | .exc => none
    | .ok none => none
    | .ok (some v) => if v == "" then none else some v

/-- `CacheManager.set` (cache.py lines 72-95): disabled or disconnected
returns `False` without touching the backend; a backend exception is
caught and returned as `False`. -/
def set (enabled connected : Bool) (b : BackendOps) (key : String) (ttl : Nat)
    (value : String) : Bool :=
  if !enabled || !connected then
    false
  else
    match b.bsetex key ttl value with
    | .exc => false
    | .ok _ => true

/-- `CacheManager.delete` (cache.py lines 97-116): disabled, disconnected
or an empty key list returns `0` without touching the backend; a backend
exception is caught and returned as `0`. -/
def delete (enabled connected : Bool) (b : BackendOps) (keys : List String) : Nat :=
  if !enabled || !connected || keys.isEmpty then
    0
  else
    match b.bdel keys with
    | .exc => 0
    | .ok n => n

end CacheManager

/-! ### Concrete fixtures used to instantiate the theorems -/

/-- A user row with default field values. -/
def exUserA : User := { user_id := 1, email := "a@b.c", username := "alice" }

/-- A second user row. -/
def exUserB : User := { user_id := 2, email := "d@e.f", username := "bob" }

/-- An empty cache. -/
def exCacheEmpty : CacheStore := { entries := [] }

/-- Two users with a block row from user 1 towards user 2. -/
def exDbBlocked : DB :=
  { users := [exUserA, exUserB], blocks := [⟨1, 2⟩], interests := [], settingsRows := [] }

/-- Two users and no block rows. -/
def exDbNoBlock : DB :=
  { users := [exUserA, exUserB], blocks := [], interests := [], settingsRows := [] }

/-- A row store with no rows at all. -/
def exDbEmpty : DB := { users := [], blocks := [], interests := [], settingsRows := [] }

/-- A cache holding one entry under user 1's profile key. -/
def exCacheWithEntry : CacheStore := { entries := [(userProfileKey 1, .vInterests [])] }

/-- A cache holding a live profile snapshot of user 1. -/
def exCacheStale : CacheStore :=
  { entries := [(userProfileKey 1, .vProfile (mkUserProfileResponse exUserA [] none))] }

/-- User 1 with one extra photo "p". -/
def exUserPhoto : User := { exUserA with profile_photos_extra := some ["p"] }

/-- Row store containing only `exUserPhoto`. -/
def exDbPhoto : DB :=
  { users := [exUserPhoto], blocks := [], interests := [], settingsRows := [] }

/-- User 1 with a full extra-photo array of 8 entries. -/
def exUserPhoto8 : User :=
  { exUserA with profile_photos_extra := some ((List.range 8).map (fun i => "q" ++ toString i)) }

/-- Row store containing only `exUserPhoto8`. -/
def exDbPhoto8 : DB :=
  { users := [exUserPhoto8], blocks := [], interests := [], settingsRows := [] }

/-- Twenty interest rows of user 1, one of them tagged "hiking". -/
def exInterests20 : List UserInterestsRow :=
  (List.range 19).map (fun i =>
    { user_id := 1, interest_tag := "t" ++ toString i, weight := 1, updated_at := 0 }) ++
    [{ user_id := 1, interest_tag := "hiking", weight := 1, updated_at := 0 }]

/-- Row store with user 1 holding the twenty interests of `exInterests20`. -/
def exDbInterests : DB :=
  { users := [exUserA], blocks := [], interests := exInterests20, settingsRows := [] }

/-- Row store with user 1 and one interest row and one settings row. -/
def exDbAlice : DB :=
  { users := [exUserA], blocks := [],
    interests := [{ user_id := 1, interest_tag := "x", weight := 1, updated_at := 0 }],
    settingsRows := [{ user_id := 1, ghost_mode := false }] }

/-- A backend whose every call raises. -/
def exBackendExc : BackendOps :=
  { bget := fun _ => .exc, bsetex := fun _ _ _ => .exc, bdel := fun _ => .exc }

/-- A backend whose every call answers normally. -/
def exBackendOk : BackendOps :=
  { bget := fun _ => .ok (some "v"), bsetex := fun _ _ _ => .ok (), bdel := fun ks => .ok ks.length }

/-! ### Helper lemmas about the embedding -/

/-- A found user row carries the queried primary key. -/
theorem findUser_user_id {db : DB} {uid : Nat} {u : User}
    (h : findUser db uid = some u) : u.user_id = uid := by
  unfold findUser at h
  have hp := List.find?_some h
  simpa using hp

/-- Committing a row replacement makes the replacement the row found under
its primary key. -/
theorem findUser_updateUser {db : DB} {uid : Nat} {u : User} (u' : User)
    (h : findUser db uid = some u) (hid : u'.user_id = uid) :
    findUser (updateUser db u') uid = some u' := by
  unfold findUser updateUser at *
  simp only
  revert h
  generalize db.users = l
  induction l with
  | nil => intro h; simp [List.find?] at h
  | cons a t ih =>
    intro h
    simp only [List.map_cons]
    by_cases ha : a.user_id = uid
    · rw [if_pos (by simp [ha, hid])]
      exact List.find?_cons_of_pos _ (by simp [hid])
    · rw [if_neg (by simp [hid, ha])]
      rw [List.find?_cons_of_neg _ (by simp [ha])]
      rw [List.find?_cons_of_neg _ (by simp [ha])] at h
      exact ih h

/-- Replacing a user row leaves the block relation untouched. -/
theorem blockExists_updateUser (db : DB) (u' : User) (A B : Nat) :
    blockExists (updateUser db u') A B = blockExists db A B := rfl

/-- The block query of the repository is symmetric in its two arguments. -/
theorem blockExists_symm (db : DB) (A B : Nat) :
    blockExists db A B = blockExists db B A := by
  unfold blockExists
  congr 1
  funext b
  exact Bool.or_comm _ _

/-- Rows erased by `DELETE ... WHERE user_id = uid` no longer answer the
interests relationship query. -/
theorem interests_filter_erased (l : List UserInterestsRow) (uid : Nat) :
    (l.filter (fun r => !(r.user_id == uid))).filter (fun r => r.user_id == uid) = [] := by
  induction l with
  | nil => rfl
  | cons a t ih =>
    by_cases h : a.user_id = uid <;> simp [List.filter_cons, h, ih]

/-- Rows erased by `DELETE ... WHERE user_id = uid` no longer answer the
settings relationship query. -/
theorem settings_filter_erased (l : List SettingsRow) (uid : Nat) :
    (l.filter (fun s => !(s.user_id == uid))).find? (fun s => s.user_id == uid) = none := by
  rw [List.find?_eq_none]
  intro x hx
  have := (List.mem_filter.mp hx).2
  simp_all

/-- A key deleted by a multi-key `DELETE` is no longer readable. -/
theorem cacheLookup_deleteKeys (c : CacheStore) (ks : List String) (k : String)
    (hk : ks.contains k = true) : cacheLookup (cacheDeleteKeys c ks) k = none := by
  unfold cacheLookup cacheDeleteKeys
  have hfind : (c.entries.filter (fun e => !(ks.contains e.1))).find?
      (fun e => e.1 == k) = none := by
    rw [List.find?_eq_none]
    intro x hx hxk
    have hmem := (List.mem_filter.mp hx).2
    have hx1 : x.1 = k := eq_of_beq hxk
    rw [hx1] at hmem
    simp only [Bool.not_eq_true'] at hmem
    rw [hmem] at hk
    exact Bool.false_ne_true hk
  rw [hfind]
  rfl

/-- A batch whose lowered tag names repeat nothing repeats no exact tag
name either. -/
theorem nodup_of_ci_nodup (l : List InterestTag)
    (h : hasCiDuplicate l = false) : (l.map (fun i => i.tag)).Nodup := by
  unfold hasCiDuplicate at h
  have hlow : (l.map (fun i => toLowerStr i.tag)).Nodup := by simpa using h
  exact List.Nodup.of_map toLowerStr
    (by rw [List.map_map]; simpa [Function.comp] using hlow)

/-- Lowercasing preserves the length of a string. -/
theorem toLowerStr_length (s : String) : (toLowerStr s).length = s.length := by
  unfold toLowerStr
  show (s.data.map Char.toLower).length = s.data.length
  exact List.length_map _ _

/-- The anonymized identity string never collides case-insensitively with
the original one. -/
theorem anonymized_ne_original (ts orig : String) :
    toLowerStr ("deleted_" ++ ts ++ "_" ++ orig) ≠ toLowerStr orig := by
  intro h
  have hlen := congrArg String.length h
  rw [toLowerStr_length, toLowerStr_length] at hlen
  have h8 : ("deleted_" : String).length = 8 := rfl
  have h1 : ("_" : String).length = 1 := rfl
  simp only [String.length_append, h8, h1] at hlen
  omega

/-- A cross-user profile read never touches the cache: it is the
repository answer, with the input cache returned unchanged. -/
theorem get_user_profile_cross {db : DB} {c : CacheStore} {A B : Nat}
    (hAB : A ≠ B) (uc : Bool) :
    ProfileService.get_user_profile db c A B uc =
      (match ProfileRepository.get_by_user_id db A B with
       | none => (.err (.notFound "User"), c)
       | some p => (.ok p, c)) := by
  unfold ProfileService.get_user_profile
  have hene : (A == B) = false := by simp [hAB]
  cases hrepo : ProfileRepository.get_by_user_id db A B <;>
    simp [hene, hrepo]

/-! ### Claim theorems -/

/-- C1: for distinct users A and B, a block row in either direction makes
the profile read fail for both orderings with the same
`ResourceNotFoundError("User")` that a nonexistent subject produces; with
no block row in either direction the read of an existing subject succeeds
in both orderings; and a self-view of an existing user is always visible
(given that the block table relates distinct users, so holds no self-block
row). -/
theorem C1_block_visibility (db : DB) (c : CacheStore) (A B : Nat) (hAB : A ≠ B) :
    (blockExists db A B = true →
      (ProfileService.get_user_profile db c A B).1 = .err (.notFound "User") ∧
      (ProfileService.get_user_profile db c B A).1 = .err (.notFound "User")) ∧
    (blockExists db A B = false →
      (∀ uA, findUser db A = some uA →
        (ProfileService.get_user_profile db c A B).1 =
          .ok (mkUserProfileResponse uA (interestsOf db A) (settingsOf db A))) ∧
      (∀ uB, findUser db B = some uB →
        (ProfileService.get_user_profile db c B A).1 =
          .ok (mkUserProfileResponse uB (interestsOf db B) (settingsOf db B)))) ∧
    (blockExists db A B = false → findUser db A = none →
      (ProfileService.get_user_profile db c A B).1 = .err (.notFound "User")) ∧
    (∀ uid u, findUser db uid = some u → blockExists db uid uid = false →
      ∃ p, (ProfileService.get_user_profile db c uid uid).1 = .ok p) := by
  have hBA : A ≠ B → blockExists db B A = blockExists db A B :=
    fun _ => (blockExists_symm db A B).symm
  refine ⟨?_, ?_, ?_, ?_⟩
  · intro hb
    rw [get_user_profile_cross hAB, get_user_profile_cross (Ne.symm hAB)]
    constructor
    · simp [ProfileRepository.get_by_user_id, hb]
    · simp [ProfileRepository.get_by_user_id, hBA hAB, hb]
  · intro hb
    constructor
    · intro uA huA
      rw [get_user_profile_cross hAB]
      simp [ProfileRepository.get_by_user_id, hb, huA]
    · intro uB huB
      rw [get_user_profile_cross (Ne.symm hAB)]
      simp [ProfileRepository.get_by_user_id, hBA hAB, hb, huB]
  · intro hb hA
    rw [get_user_profile_cross hAB]
    simp [ProfileRepository.get_by_user_id, hb, hA]
  · intro uid u hu hself
    unfold ProfileService.get_user_profile
    cases hc : cacheGetUserProfile c uid with
    | some p => exact ⟨p, by simp [hc]⟩
    | none =>
      refine ⟨mkUserProfileResponse u (interestsOf db uid) (settingsOf db uid), ?_⟩
      simp [hc, ProfileRepository.get_by_user_id, hself, hu]

/-- C1 witness: the block row of `exDbBlocked` conceals user 1 from user
2, in `exDbNoBlock` the same read succeeds, and the self-view of user 1
succeeds. -/
theorem C1_block_visibility_witness :
    (ProfileService.get_user_profile exDbBlocked exCacheEmpty 1 2).1 =
      .err (.notFound "User") ∧
    (ProfileService.get_user_profile exDbNoBlock exCacheEmpty 1 2).1 =
      .ok (mkUserProfileResponse exUserA (interestsOf exDbNoBlock 1) (settingsOf exDbNoBlock 1)) ∧
    (∃ p, (ProfileService.get_user_profile exDbNoBlock exCacheEmpty 1 1).1 = .ok p) := by
  refine ⟨?_, ?_, ?_⟩
  · exact ((C1_block_visibility exDbBlocked exCacheEmpty 1 2 (by decide)).1 (by decide)).1
  · exact ((C1_block_visibility exDbNoBlock exCacheEmpty 1 2 (by decide)).2.1
      (by decide)).1 exUserA (by decide)
  · exact (C1_block_visibility exDbNoBlock exCacheEmpty 1 2 (by decide)).2.2.2 1 exUserA
      (by decide) (by decide)

/-- C10: a cross-user profile read (`user_id ≠ requesting_user_id`)
neither writes the profile cache (the cache state is returned unchanged)
nor reads it (the answer is the same for any two cache contents), so the
read always reaches storage and its block check: with a block row present
it fails with `ResourceNotFoundError("User")` whatever snapshot the cache
holds. -/
theorem C10_cross_read_bypasses_cache (db : DB) (c c2 : CacheStore)
    (A B : Nat) (uc : Bool) (hAB : A ≠ B) :
    (ProfileService.get_user_profile db c A B uc).2 = c ∧
    (ProfileService.get_user_profile db c A B uc).1 =
      (ProfileService.get_user_profile db c2 A B uc).1 ∧
    (blockExists db A B = true →
      (ProfileService.get_user_profile db c A B uc).1 = .err (.notFound "User")) := by
  rw [get_user_profile_cross hAB, get_user_profile_cross hAB]
  refine ⟨?_, ?_, ?_⟩
  · cases hrepo : ProfileRepository.get_by_user_id db A B <;> simp [hrepo]
  · cases hrepo : ProfileRepository.get_by_user_id db A B <;> simp [hrepo]
  · intro hb
    simp [ProfileRepository.get_by_user_id, hb]

/-- C10 witness: with a live cached snapshot of user 1 in the cache, the
read of 1 by 2 across the block row of `exDbBlocked` still fails, and the
cache is returned unchanged. -/
theorem C10_cross_read_bypasses_cache_witness :
    (ProfileService.get_user_profile exDbBlocked exCacheStale 1 2).2 = exCacheStale ∧
    (ProfileService.get_user_profile exDbBlocked exCacheStale 1 2).1 =
      .err (.notFound "User") := by
  refine ⟨?_, ?_⟩
  · exact (C10_cross_read_bypasses_cache exDbBlocked exCacheStale exCacheEmpty 1 2 true
      (by decide)).1
  · exact (C10_cross_read_bypasses_cache exDbBlocked exCacheStale exCacheEmpty 1 2 true
      (by decide)).2.2 (by decide)

/-- C2: the validated ban request rejects an expiry less than or equal to
now with a validation error, leaving the row store untouched; a future
expiry moves the user (from any prior state) to `temporary_ban` with
`ban_expires_at` set to the expiry; an omitted expiry moves the user to
`banned` with `ban_expires_at` cleared; both successful branches overwrite
`ban_reason` with the given reason. -/
theorem C2_ban_transition (db : DB) (c : CacheStore) (uid : Nat)
    (reason : String) (expires_at : Option Int) (now : Int) :
    (∀ t, expires_at = some t → t ≤ now →
      banUserValidated db c uid reason expires_at now =
        (.err (.validationFailed "Ban expiry date must be in the future"), db, c)) ∧
    (∀ u t, findUser db uid = some u → expires_at = some t → now < t →
      banUserValidated db c uid reason expires_at now =
        (.ok true,
         updateUser db { u with status := .temporary_ban, ban_expires_at := some t,
                                ban_reason := some reason, updated_at := now },
         invalidateAllUserCaches c uid)) ∧
    (∀ u, findUser db uid = some u → expires_at = none →
      banUserValidated db c uid reason expires_at now =
        (.ok true,
         updateUser db { u with status := .banned, ban_expires_at := none,
                                ban_reason := some reason, updated_at := now },
         invalidateAllUserCaches c uid)) := by
  refine ⟨?_, ?_, ?_⟩
  · intro t ht hle
    subst ht
    simp [banUserValidated, validateBanExpiry, hle]
  · intro u t hu ht hlt
    subst ht
    have hv : ¬ t ≤ now := not_le.mpr hlt
    simp [banUserValidated, validateBanExpiry, hv,
      ModerationService.ban_user, ModerationRepository.ban_user, hu]
  · intro u hu ht
    subst ht
    simp [banUserValidated, validateBanExpiry,
      ModerationService.ban_user, ModerationRepository.ban_user, hu]

/-- C2 witness: a past expiry is rejected and leaves the store unchanged,
a future expiry yields a temporary ban, an omitted expiry a permanent
one. -/
theorem C2_ban_transition_witness :
    banUserValidated exDbNoBlock exCacheEmpty 1 "r" (some 5) 10 =
      (.err (.validationFailed "Ban expiry date must be in the future"),
        exDbNoBlock, exCacheEmpty) ∧
    banUserValidated exDbNoBlock exCacheEmpty 1 "r" (some 50) 10 =
      (.ok true,
       updateUser exDbNoBlock { exUserA with status := .temporary_ban,
                                             ban_expires_at := some 50,
                                             ban_reason := some "r", updated_at := 10 },
       invalidateAllUserCaches exCacheEmpty 1) ∧
    banUserValidated exDbNoBlock exCacheEmpty 1 "r" none 10 =
      (.ok true,
       updateUser exDbNoBlock { exUserA with status := .banned,
                                             ban_expires_at := none,
                                             ban_reason := some "r", updated_at := 10 },
       invalidateAllUserCaches exCacheEmpty 1) := by
  refine ⟨?_, ?_, ?_⟩
  · exact (C2_ban_transition exDbNoBlock exCacheEmpty 1 "r" (some 5) 10).1 5 rfl (by decide)
  · exact (C2_ban_transition exDbNoBlock exCacheEmpty 1 "r" (some 50) 10).2.1 exUserA 50
      (by decide) rfl (by decide)
  · exact (C2_ban_transition exDbNoBlock exCacheEmpty 1 "r" none 10).2.2 exUserA
      (by decide) rfl

/-- C3: a successful validated ban deletes all three cache keys of the
user (profile, settings, interests), a successful unban does the same,
and a self profile read immediately after the ban cannot be served from
the cache and reports the committed `temporary_ban` state with the stored
expiry. -/
theorem C3_ban_invalidates_caches (db : DB) (c : CacheStore) (uid : Nat)
    (reason : String) (t now : Int) (u : User)
    (hu : findUser db uid = some u) (hfuture : now < t)
    (hself : blockExists db uid uid = false) :
    (banUserValidated db c uid reason (some t) now).1 = .ok true ∧
    (cacheLookup (banUserValidated db c uid reason (some t) now).2.2
        (userProfileKey uid) = none ∧
     cacheLookup (banUserValidated db c uid reason (some t) now).2.2
        (userSettingsKey uid) = none ∧
     cacheLookup (banUserValidated db c uid reason (some t) now).2.2
        (userInterestsKey uid) = none) ∧
    ((ModerationService.unban_user db c uid now).1 = true ∧
     cacheLookup (ModerationService.unban_user db c uid now).2.2
        (userProfileKey uid) = none ∧
     cacheLookup (ModerationService.unban_user db c uid now).2.2
        (userSettingsKey uid) = none ∧
     cacheLookup (ModerationService.unban_user db c uid now).2.2
        (userInterestsKey uid) = none) ∧
    (∃ p, (ProfileService.get_user_profile
        (banUserValidated db c uid reason (some t) now).2.1
        (banUserValidated db c uid reason (some t) now).2.2 uid uid).1 = .ok p ∧
      p.status = .temporary_ban ∧ p.ban_expires_at = some t) := by
  have hban := (C2_ban_transition db c uid reason (some t) now).2.1 u t hu rfl hfuture
  set u' : User := { u with status := .temporary_ban, ban_expires_at := some t,
                            ban_reason := some reason, updated_at := now } with hu'
  have hid : u'.user_id = uid := by
    rw [hu']
    exact findUser_user_id (u := u) hu
  have hfind' : findUser (updateUser db u') uid = some u' :=
    findUser_updateUser u' hu hid
  have hinv : ∀ k, [userProfileKey uid, userSettingsKey uid,
      userInterestsKey uid].contains k = true →
      cacheLookup (invalidateAllUserCaches c uid) k = none := by
    intro k hk
    unfold invalidateAllUserCaches
    exact cacheLookup_deleteKeys c _ k hk
  refine ⟨by rw [hban], ⟨?_, ?_, ?_⟩, ⟨?_, ?_, ?_, ?_⟩, ?_⟩
  · rw [hban]; exact hinv _ (by simp)
  · rw [hban]; exact hinv _ (by simp)
  · rw [hban]; exact hinv _ (by simp)
  · simp [ModerationService.unban_user, ModerationRepository.unban_user, hu]
  · simp only [ModerationService.unban_user, ModerationRepository.unban_user, hu]
    exact hinv _ (by simp)
  · simp only [ModerationService.unban_user, ModerationRepository.unban_user, hu]
    exact hinv _ (by simp)
  · simp only [ModerationService.unban_user, ModerationRepository.unban_user, hu]
    exact hinv _ (by simp)
  · rw [hban]
    refine ⟨mkUserProfileResponse u' (interestsOf (updateUser db u') uid)
      (settingsOf (updateUser db u') uid), ?_, ?_, ?_⟩
    · have hmiss : cacheGetUserProfile (invalidateAllUserCaches c uid) uid = none := by
        unfold cacheGetUserProfile
        rw [hinv _ (by simp)]
      have hself' : blockExists (updateUser db u') uid uid = false := by
        rw [blockExists_updateUser]
        exact hself
      unfold ProfileService.get_user_profile
      simp [hmiss, ProfileRepository.get_by_user_id, hself', hfind']
    · simp [mkUserProfileResponse]
    · simp [mkUserProfileResponse]

/-- C3 witness: banning user 1 of `exDbNoBlock` until instant 50 and then
reading the profile observes the temporary ban. -/
theorem C3_ban_invalidates_caches_witness :
    (banUserValidated exDbNoBlock exCacheStale 1 "r" (some 50) 10).1 = .ok true ∧
    (∃ p, (ProfileService.get_user_profile
        (banUserValidated exDbNoBlock exCacheStale 1 "r" (some 50) 10).2.1
        (banUserValidated exDbNoBlock exCacheStale 1 "r" (some 50) 10).2.2 1 1).1 = .ok p ∧
      p.status = .temporary_ban ∧ p.ban_expires_at = some 50) := by
  refine ⟨?_, ?_⟩
  · exact (C3_ban_invalidates_caches exDbNoBlock exCacheStale 1 "r" 50 10 exUserA
      (by decide) (by decide) (by decide)).1
  · exact (C3_ban_invalidates_caches exDbNoBlock exCacheStale 1 "r" 50 10 exUserA
      (by decide) (by decide) (by decide)).2.2.2

/-- C4 counterexample: banning a user id with no row in an empty store
changes no field, yet the cache invalidation still fires — the entry under
the user's profile key disappears, against the claim that on the
no-user branch no cache invalidation fires. -/
theorem C4_counterexample :
    (ModerationService.ban_user exDbEmpty exCacheWithEntry 1 "r" none 0).1 = false ∧
    (ModerationService.ban_user exDbEmpty exCacheWithEntry 1 "r" none 0).2.1 = exDbEmpty ∧
    (ModerationService.ban_user exDbEmpty exCacheWithEntry 1 "r" none 0).2.2 ≠
      exCacheWithEntry := by
  decide

/-- C4 amended: each of ban, unban and moderatePhoto commits its whole row
update and fires its cache invalidation on success; when the target user
does not exist no field changes, but the service-layer invalidation fires
unconditionally all the same. -/
theorem C4_transition_atomicity (db : DB) (c : CacheStore) (uid : Nat)
    (reason : String) (expires_at : Option Int)
    (decision : PhotoModerationStatus) (now : Int) :
    (findUser db uid = none →
      ModerationService.ban_user db c uid reason expires_at now =
        (false, db, invalidateAllUserCaches c uid) ∧
      ModerationService.unban_user db c uid now =
        (false, db, invalidateAllUserCaches c uid) ∧
      ModerationService.moderate_photo db c uid decision now =
        (false, db, invalidateUserProfile c uid)) ∧
    (∀ u, findUser db uid = some u →
      ModerationService.ban_user db c uid reason expires_at now =
        (true,
         updateUser db
           (if expires_at.isSome then
             { u with status := .temporary_ban, ban_expires_at := expires_at,
                      ban_reason := some reason, updated_at := now }
           else
             { u with status := .banned, ban_expires_at := none,
                      ban_reason := some reason, updated_at := now }),
         invalidateAllUserCaches c uid) ∧
      ModerationService.unban_user db c uid now =
        (true,
         updateUser db { u with status := .active, ban_expires_at := none,
                                ban_reason := none, updated_at := now },
         invalidateAllUserCaches c uid) ∧
      ModerationService.moderate_photo db c uid decision now =
        (true,
         updateUser db { u with main_photo_moderation_status := decision,
                                updated_at := now },
         invalidateUserProfile c uid)) := by
  constructor
  · intro hnone
    refine ⟨?_, ?_, ?_⟩ <;>
      simp [ModerationService.ban_user, ModerationRepository.ban_user,
        ModerationService.unban_user, ModerationRepository.unban_user,
        ModerationService.moderate_photo, ModerationRepository.moderate_photo, hnone]
  · intro u hu
    refine ⟨?_, ?_, ?_⟩
    · cases expires_at <;>
        simp [ModerationService.ban_user, ModerationRepository.ban_user, hu]
    · simp [ModerationService.unban_user, ModerationRepository.unban_user, hu]
    · simp [ModerationService.moderate_photo, ModerationRepository.moderate_photo, hu]

/-- C4 amended witness: the no-user branch at user id 1 of the empty store
and the success branch at user 1 of `exDbNoBlock`. -/
theorem C4_transition_atomicity_witness :
    ModerationService.ban_user exDbEmpty exCacheWithEntry 1 "r" none 0 =
      (false, exDbEmpty, invalidateAllUserCaches exCacheWithEntry 1) ∧
    ModerationService.unban_user exDbNoBlock exCacheEmpty 1 0 =
      (true,
       updateUser exDbNoBlock { exUserA with status := .active, ban_expires_at := none,
                                             ban_reason := none, updated_at := 0 },
       invalidateAllUserCaches exCacheEmpty 1) := by
  refine ⟨?_, ?_⟩
  · exact ((C4_transition_atomicity exDbEmpty exCacheWithEntry 1 "r" none .approved 0).1
      (by decide)).1
  · exact ((C4_transition_atomicity exDbNoBlock exCacheEmpty 1 "r" none .approved 0).2
      exUserA (by decide)).2.1

/-- C5 counterexample: user 1 of `exDbInterests` holds exactly 20 interest
rows, one of them tagged "hiking"; adding "hiking" again is rejected with
the limit error and the store is unchanged, against the claim that an
already-present tag has its weight updated in place at the limit. -/
theorem C5_counterexample :
    (exDbInterests.interests.filter (fun r => r.user_id == 1)).length = 20 ∧
    exDbInterests.interests.any
      (fun r => r.user_id == 1 && r.interest_tag == "hiking") = true ∧
    (addInterestService exDbInterests exCacheEmpty 1 "hiking" (1 / 2) 5).1 =
      .err (.limitExceeded "interests" 20) ∧
    (addInterestService exDbInterests exCacheEmpty 1 "hiking" (1 / 2) 5).2.1 =
      exDbInterests := by
  decide

/-- C5 amended: the bulk replacement rejects a batch over 20 entries or
with case-insensitive duplicate tag names at the validation layer, leaving
the stored tags unchanged, and otherwise replaces the user's rows; the
single-tag add is rejected whenever the user already has 20 rows — even
when the tag is already present — and below 20 an exact-match (hence
case-sensitively compared) existing tag has its weight overwritten in
place while a fresh tag is inserted as a new row. -/
theorem C5_interest_bounds (db : DB) (c : CacheStore) (uid : Nat)
    (l : List InterestTag) (tag : String) (w : ℚ) (now : Int) :
    (l.length > 20 ∨ hasCiDuplicate l = true →
      ∃ msg, setInterestsValidated db c uid l now =
        (.err (.validationFailed msg), db, c)) ∧
    (l.length ≤ 20 → hasCiDuplicate l = false →
      setInterestsValidated db c uid l now =
        (.ok l.length,
         { db with interests :=
                     db.interests.filter (fun r => !(r.user_id == uid)) ++
                       l.map (fun i => { user_id := uid, interest_tag := i.tag,
                                         weight := i.weight, updated_at := now }) },
         invalidateUserProfile (invalidateUserInterests c uid) uid)) ∧
    ((db.interests.filter (fun r => r.user_id == uid)).length ≥ 20 →
      addInterestService db c uid tag w now =
        (.err (.limitExceeded "interests" 20), db, c)) ∧
    ((db.interests.filter (fun r => r.user_id == uid)).length < 20 →
      (∀ r0, db.interests.find?
          (fun r => r.user_id == uid && r.interest_tag == tag) = some r0 →
        addInterestService db c uid tag w now =
          (.ok true,
           { db with interests :=
                       db.interests.map (fun r =>
                         if r.user_id == uid && r.interest_tag == tag then
                           { r with weight := w, updated_at := now }
                         else r) },
           invalidateUserProfile (invalidateUserInterests c uid) uid)) ∧
      (db.interests.find?
          (fun r => r.user_id == uid && r.interest_tag == tag) = none →
        addInterestService db c uid tag w now =
          (.ok true,
           { db with interests :=
                       db.interests ++
                         [{ user_id := uid, interest_tag := tag, weight := w,
                            updated_at := now }] },
           invalidateUserProfile (invalidateUserInterests c uid) uid))) := by
  refine ⟨?_, ?_, ?_, ?_⟩
  · intro h
    by_cases hl : 20 < l.length
    · exact ⟨"ensure this value has at most 20 items",
        by simp [setInterestsValidated, hl]⟩
    · have hd : hasCiDuplicate l = true := by
        rcases h with h | h
        · exact absurd h hl
        · exact h
      exact ⟨"Interest tags must be unique",
        by simp [setInterestsValidated, hl, hd]⟩
  · intro hlen hdup
    have hl : ¬ 20 < l.length := not_lt.mpr hlen
    have hnd : (l.map (fun i => i.tag)).Nodup := nodup_of_ci_nodup l hdup
    simp [setInterestsValidated, InterestRepository.set_interests, hl, hdup, hnd]
  · intro hge
    have hmax : strContainsSub "Maximum limit of 20 interests reached" "Maximum" = true := by
      decide
    simp [addInterestService, InterestRepository.add_interest, hge, hmax]
  · intro hlt
    have hnotge : ¬ (db.interests.filter (fun r => r.user_id == uid)).length ≥ 20 :=
      not_le.mpr hlt
    constructor
    · intro r0 hfound
      simp [addInterestService, InterestRepository.add_interest, hnotge, hfound]
    · intro hnone
      simp [addInterestService, InterestRepository.add_interest, hnotge, hnone]

/-- C5 amended witness: a 21-entry batch is rejected, a clean 1-entry
batch replaces the rows, the add at the 20-row limit is rejected, and an
add of the existing tag below the limit updates the weight in place. -/
theorem C5_interest_bounds_witness :
    (∃ msg, setInterestsValidated exDbAlice exCacheEmpty 1
        ((List.range 21).map (fun i => { tag := "s" ++ toString i, weight := 1 })) 5 =
      (.err (.validationFailed msg), exDbAlice, exCacheEmpty)) ∧
    addInterestService exDbInterests exCacheEmpty 1 "hiking" (1 / 2) 5 =
      (.err (.limitExceeded "interests" 20), exDbInterests, exCacheEmpty) ∧
    addInterestService exDbAlice exCacheEmpty 1 "x" (1 / 2) 5 =
      (.ok true,
       { exDbAlice with interests := [{ user_id := 1, interest_tag := "x",
                                        weight := 1 / 2, updated_at := 5 }] },
       invalidateUserProfile (invalidateUserInterests exCacheEmpty 1) 1) := by
  refine ⟨?_, ?_, ?_⟩
  · exact (C5_interest_bounds exDbAlice exCacheEmpty 1
      ((List.range 21).map (fun i => { tag := "s" ++ toString i, weight := 1 })) "x" 1 5).1
      (Or.inl (by decide))
  · exact ((C5_interest_bounds exDbInterests exCacheEmpty 1 [] "hiking" (1 / 2) 5).2.2.1
      (by decide))
  · have h := ((C5_interest_bounds exDbAlice exCacheEmpty 1 [] "x" (1 / 2) 5).2.2.2
      (by decide)).1 { user_id := 1, interest_tag := "x", weight := 1, updated_at := 0 }
      (by decide)
    simpa using h

/-- C6: with the extra-photo array of user 1 holding "p", adding "p" again
leaves every row unchanged but is reported as `ResourceNotFoundError
("User")` — the repository says "Photo already exists" while the service
looks for "already added", so the duplicate branch that would raise
`ResourceDuplicateError` is unreachable; the 9th-photo add is correctly
rejected with the limit error, the array staying at 8 entries. -/
theorem C6_duplicate_add_misreported :
    PhotoService.add_profile_photo exDbPhoto exCacheEmpty 1 "p" 5 =
      (.err (.notFound "User"), exDbPhoto, exCacheEmpty) ∧
    findUser exDbPhoto 1 = some exUserPhoto ∧
    (exUserPhoto.profile_photos_extra.getD []).contains "p" = true ∧
    (PhotoRepository.add_profile_photo exDbPhoto 1 "p" 5).1 =
      { success := false, message := "Photo already exists" } ∧
    strContainsSub "Photo already exists" "already added" = false ∧
    (PhotoService.add_profile_photo exDbPhoto8 exCacheEmpty 1 "x" 5).1 =
      .err (.limitExceeded "photos" 8) ∧
    (PhotoService.add_profile_photo exDbPhoto8 exCacheEmpty 1 "x" 5).2.1 =
      exDbPhoto8 := by
  decide

/-- C7: the verification-metrics read of an existing user carries exactly
the trust score `round1(clamp(0, 100, v*10 - n*20 + a*0.5))` of the spec
formula, and the two reference inputs evaluate to 100 and 0. -/
theorem C7_trust_score_formula :
    (∀ db uid u, findUser db uid = some u →
      ∃ m, VerificationService.get_verification_metrics db uid = .ok m ∧
        m.trust_score = trustScoreSpec u.verification_count u.no_show_count
          u.activities_attended_count) ∧
    trustScore 12 0 34 = 100 ∧
    trustScore 0 5 0 = 0 := by
  refine ⟨?_, ?_, ?_⟩
  case refine_2 =>
    unfold trustScore pythonRound1
    norm_num [min_def, max_def]
  case refine_3 =>
    unfold trustScore pythonRound1
    norm_num [min_def, max_def]
  intro db uid u hu
  simp only [VerificationService.get_verification_metrics, hu]
  exact ⟨_, rfl, rfl⟩

/-- C7 witness: the metrics of user 1 of `exDbNoBlock` carry the spec
formula's score of that user's counters. -/
theorem C7_trust_score_formula_witness :
    ∃ m, VerificationService.get_verification_metrics exDbNoBlock 1 = .ok m ∧
      m.trust_score = trustScoreSpec exUserA.verification_count exUserA.no_show_count
        exUserA.activities_attended_count :=
  (C7_trust_score_formula.1) exDbNoBlock 1 exUserA (by decide)

/-- C8 counterexample: soft-deleting user 1 of `exDbAlice` succeeds, and
the immediately following self profile read does not return NotFound — it
succeeds with the anonymized row — against the claim that
`get_profile(u, u)` returns NotFound after deletion. -/
theorem C8_counterexample :
    (ProfileService.delete_account exDbAlice exCacheEmpty 1 "100" 7).1 = .ok true ∧
    (ProfileService.get_user_profile
        (ProfileService.delete_account exDbAlice exCacheEmpty 1 "100" 7).2.1
        (ProfileService.delete_account exDbAlice exCacheEmpty 1 "100" 7).2.2 1 1).1 =
      .ok (mkUserProfileResponse
        { exUserA with status := .banned, email := "deleted_100_a@b.c",
                       username := "deleted_100_alice", updated_at := 7 } [] none) := by
  decide

/-- C8 amended: soft deletion of an existing user sets `status=banned`
from any prior state, rewrites email and username to
`deleted_<timestamp>_<original>`, deletes the user's interests and
settings rows, and invalidates all three cached resources; afterwards the
self profile read succeeds and returns the anonymized row with
`status=banned` (the read path does not filter by status, so it is not
NotFound), and a case-insensitive username-uniqueness check against the
original username finds no conflict. -/
theorem C8_soft_delete (db : DB) (c : CacheStore) (uid : Nat) (u : User)
    (ts : String) (now : Int)
    (hu : findUser db uid = some u)
    (hself : blockExists db uid uid = false)
    (huniq : ∀ v ∈ db.users, v.user_id ≠ uid →
      toLowerStr v.username ≠ toLowerStr u.username) :
    (anonymizeUser u ts now).status = .banned ∧
    (anonymizeUser u ts now).email = "deleted_" ++ ts ++ "_" ++ u.email ∧
    (anonymizeUser u ts now).username = "deleted_" ++ ts ++ "_" ++ u.username ∧
    (ProfileService.delete_account db c uid ts now).1 = .ok true ∧
    findUser (ProfileService.delete_account db c uid ts now).2.1 uid =
      some (anonymizeUser u ts now) ∧
    interestsOf (ProfileService.delete_account db c uid ts now).2.1 uid = [] ∧
    settingsOf (ProfileService.delete_account db c uid ts now).2.1 uid = none ∧
    (cacheLookup (ProfileService.delete_account db c uid ts now).2.2
        (userProfileKey uid) = none ∧
     cacheLookup (ProfileService.delete_account db c uid ts now).2.2
        (userSettingsKey uid) = none ∧
     cacheLookup (ProfileService.delete_account db c uid ts now).2.2
        (userInterestsKey uid) = none) ∧
    (∃ p, (ProfileService.get_user_profile
        (ProfileService.delete_account db c uid ts now).2.1
        (ProfileService.delete_account db c uid ts now).2.2 uid uid).1 = .ok p ∧
      p.status = .banned ∧
      p.username = "deleted_" ++ ts ++ "_" ++ u.username) ∧
    usernameConflict (ProfileService.delete_account db c uid ts now).2.1
      u.username = false := by
  have hid : (anonymizeUser u ts now).user_id = uid :=
    findUser_user_id (u := u) hu
  have hans : ProfileService.delete_account db c uid ts now =
      (.ok true,
       { updateUser db (anonymizeUser u ts now) with
           interests := db.interests.filter (fun r => !(r.user_id == uid)),
           settingsRows := db.settingsRows.filter (fun s => !(s.user_id == uid)) },
       invalidateAllUserCaches c uid) := by
    simp [ProfileService.delete_account, ProfileRepository.delete, hu, updateUser]
  have hinv : ∀ k, [userProfileKey uid, userSettingsKey uid,
      userInterestsKey uid].contains k = true →
      cacheLookup (invalidateAllUserCaches c uid) k = none := by
    intro k hk
    unfold invalidateAllUserCaches
    exact cacheLookup_deleteKeys c _ k hk
  have hfind : findUser (ProfileService.delete_account db c uid ts now).2.1 uid =
      some (anonymizeUser u ts now) := by
    rw [hans]
    exact findUser_updateUser _ hu hid
  have hints : interestsOf (ProfileService.delete_account db c uid ts now).2.1 uid = [] := by
    rw [hans]
    show ((db.interests.filter (fun r => !(r.user_id == uid))).filter
        (fun r => r.user_id == uid)).map
        (fun r => ({ tag := r.interest_tag, weight := r.weight } : InterestTag)) = []
    rw [interests_filter_erased]
    rfl
  have hsett : settingsOf (ProfileService.delete_account db c uid ts now).2.1 uid = none := by
    rw [hans]
    unfold settingsOf
    exact settings_filter_erased db.settingsRows uid
  refine ⟨rfl, rfl, rfl, by rw [hans], hfind, hints, hsett, ⟨?_, ?_, ?_⟩, ?_, ?_⟩
  · rw [hans]; exact hinv _ (by simp)
  · rw [hans]; exact hinv _ (by simp)
  · rw [hans]; exact hinv _ (by simp)
  · refine ⟨mkUserProfileResponse (anonymizeUser u ts now)
      (interestsOf (ProfileService.delete_account db c uid ts now).2.1 uid)
      (settingsOf (ProfileService.delete_account db c uid ts now).2.1 uid), ?_, rfl, rfl⟩
    have hmiss : cacheGetUserProfile
        (ProfileService.delete_account db c uid ts now).2.2 uid = none := by
      rw [hans]
      unfold cacheGetUserProfile
      rw [hinv _ (by simp)]
    have hself' : blockExists (ProfileService.delete_account db c uid ts now).2.1 uid uid
        = false := by
      rw [hans]
      exact hself
    unfold ProfileService.get_user_profile
    simp [hmiss, ProfileRepository.get_by_user_id, hself', hfind]
  · rw [hans]
    unfold usernameConflict updateUser
    simp only [List.any_eq_false]
    intro x hx
    rcases List.mem_map.mp hx with ⟨v, hv, hvx⟩
    by_cases hcond : (v.user_id == (anonymizeUser u ts now).user_id) = true
    · rw [if_pos hcond] at hvx
      subst hvx
      simpa [anonymizeUser] using anonymized_ne_original ts u.username
    · rw [if_neg hcond] at hvx
      subst hvx
      have hne : v.user_id ≠ uid := by
        intro he
        exact hcond (by simp [he, hid.symm])
      simpa using huniq v hv hne

/-- C8 amended witness: deleting user 1 of `exDbAlice` anonymizes the row,
empties the dependent rows, and frees the original username. -/
theorem C8_soft_delete_witness :
    (ProfileService.delete_account exDbAlice exCacheEmpty 1 "100" 7).1 = .ok true ∧
    interestsOf (ProfileService.delete_account exDbAlice exCacheEmpty 1 "100" 7).2.1 1 = [] ∧
    usernameConflict (ProfileService.delete_account exDbAlice exCacheEmpty 1 "100" 7).2.1
      "alice" = false := by
  refine ⟨?_, ?_, ?_⟩
  · exact (C8_soft_delete exDbAlice exCacheEmpty 1 exUserA "100" 7 (by decide) (by decide)
      (by decide)).2.2.2.1
  · exact (C8_soft_delete exDbAlice exCacheEmpty 1 exUserA "100" 7 (by decide) (by decide)
      (by decide)).2.2.2.2.2.1
  · exact (C8_soft_delete exDbAlice exCacheEmpty 1 exUserA "100" 7 (by decide) (by decide)
      (by decide)).2.2.2.2.2.2.2.2.2

/-- C9: a raised backend exception is absorbed — `get` answers a miss,
`set` answers `False`, `delete` answers `0` — and with the cache-enabled
flag off every operation ignores the backend entirely and answers the
always-miss/silent-success values without raising. -/
theorem C9_cache_failures_absorbed (b : BackendOps) (key : String) (ttl : Nat)
    (v : String) (keys : List String) (connected : Bool) :
    (b.bget key = .exc → CacheManager.get true true b key = none) ∧
    (b.bsetex key ttl v = .exc → CacheManager.set true true b key ttl v = false) ∧
    (b.bdel keys = .exc → CacheManager.delete true true b keys = 0) ∧
    (CacheManager.get false connected b key = none ∧
     CacheManager.set false connected b key ttl v = false ∧
     CacheManager.delete false connected b keys = 0) ∧
    (∀ b2 : BackendOps,
      CacheManager.get false connected b key = CacheManager.get false connected b2 key ∧
      CacheManager.set false connected b key ttl v =
        CacheManager.set false connected b2 key ttl v ∧
      CacheManager.delete false connected b keys =
        CacheManager.delete false connected b2 keys) := by
  refine ⟨?_, ?_, ?_, ⟨?_, ?_, ?_⟩, ?_⟩
  · intro h; simp [CacheManager.get, h]
  · intro h; simp [CacheManager.set, h]
  · intro h; simp [CacheManager.delete, h]
  · simp [CacheManager.get]
  · simp [CacheManager.set]
  · simp [CacheManager.delete]
  · intro b2
    refine ⟨?_, ?_, ?_⟩ <;>
      simp [CacheManager.get, CacheManager.set, CacheManager.delete]

/-- C9 witness: the always-raising backend yields miss/False/0 with the
cache enabled, and the disabled flag yields a miss on a healthy backend. -/
theorem C9_cache_failures_absorbed_witness :
    CacheManager.get true true exBackendExc "user_profile:1" = none ∧
    CacheManager.set true true exBackendExc "user_profile:1" 300 "snap" = false ∧
    CacheManager.delete true true exBackendExc ["user_profile:1"] = 0 ∧
    CacheManager.get false true exBackendOk "user_profile:1" = none := by
  refine ⟨?_, ?_, ?_, ?_⟩
  · exact (C9_cache_failures_absorbed exBackendExc "user_profile:1" 300 "snap"
      ["user_profile:1"] true).1 rfl
  · exact (C9_cache_failures_absorbed exBackendExc "user_profile:1" 300 "snap"
      ["user_profile:1"] true).2.1 rfl
  · exact (C9_cache_failures_absorbed exBackendExc "user_profile:1" 300 "snap"
      ["user_profile:1"] true).2.2.1 rfl
  · exact (C9_cache_failures_absorbed exBackendOk "user_profile:1" 300 "snap"
      ["user_profile:1"] true).2.2.2.1.1

end UserProfileApi
